import Mathlib

/-!
# The shopping cart of `cart.js`

A shallow embedding of the `Cart` class of `src/cart.js` and the properties of
its operations.

Modelling conventions.

* A price and every total is an IEEE 754 double (`JsNumber`): a finite value
  `m × 2^e`, with `+` and `*` rounding the exact result to the nearest double,
  ties to even.  `Infinity`, `NaN` and the sign of zero are not represented
  (a result of 2^1024 or more stays finite).  A quantity and a product id are
  integers (the click handlers read an id back with `parseInt`).
* An object of the `items` array is a record `Item`; the array is a `List`.
  `Array.prototype.find` is `List.find?`, and a write through the reference
  `find` returns is a rewrite of the first matching entry (`updateFirst`).
* `localStorage` is the one slot `luxuryCakesCart`.  A stored text is kept up to
  what `JSON.parse` makes of it (`StoredText`), so `JSON.stringify(items)` is
  the text that parses back to `items`: the round trip of the two built-ins on
  item records is taken from the platform, not derived.
* The page is the set of texts the class writes.  The elements `renderCart`
  writes to are taken to exist; the badge `cartCount` may be absent, as the
  source tests for it.  `toFixed(2)` is kept as the number of hundredths shown.
* `alert`, the modals appended to the document body and `window.location.href`
  are fields of the state.
-/

namespace CartJs

set_option maxRecDepth 8000

/-! ## Numbers -/

/-- A finite IEEE 754 double, the value `m × 2^e`.  The operations return it in
lowest terms: `m` odd, or `m = 0` and `e = 0`. -/
structure JsNumber where
  m : Int
  e : Int
deriving DecidableEq

/-- Number of binary digits of `n`, by halving (`fuel` bounds the steps). -/
def bitLengthAux : Nat → Nat → Nat
  | 0, _ => 0
  | fuel + 1, n => if n = 0 then 0 else bitLengthAux fuel (n / 2) + 1

/-- Number of binary digits of `n`. -/
def bitLength (n : Nat) : Nat :=
  bitLengthAux n n

/-- Number of trailing zero bits of `n`, by halving (`fuel` bounds the steps). -/
def trailingZerosAux : Nat → Nat → Nat
  | 0, _ => 0
  | fuel + 1, n => if n % 2 = 0 then trailingZerosAux fuel (n / 2) + 1 else 0

/-- Number of trailing zero bits of `n`. -/
def trailingZeros (n : Nat) : Nat :=
  if n = 0 then 0 else trailingZerosAux n n

/-- The quotient `n / 2^k` rounded to the nearest integer, ties to even. -/
def roundShift (n k : Nat) : Nat :=
  let q := n / 2 ^ k
  let r := n % 2 ^ k
  let half := 2 ^ (k - 1)
  if half < r ∨ (r = half ∧ q % 2 = 1) then q + 1 else q

namespace JsNumber

/-- The value `m × 2^e` in lowest terms. -/
def normalize (m e : Int) : JsNumber :=
  if m = 0 then ⟨0, 0⟩
  else
    let t := trailingZeros m.natAbs
    ⟨m / (2 ^ t : Nat), e + t⟩

/-- The double nearest to `m × 2^e`, ties to even: 53 significant bits, and no
bit below `2^(-1074)`. -/
def round (m e : Int) : JsNumber :=
  let n := m.natAbs
  let a : Int := (bitLength n : Int) - 53
  let b : Int := -1074 - e
  let k : Int := if a ≤ b then b else a
  if k ≤ 0 then normalize m e
  else
    let q : Int := roundShift n k.toNat
    normalize (if m < 0 then -q else q) (e + k)

/-- The double of an integer. -/
def ofInt (z : Int) : JsNumber :=
  round z 0

/-- The double of a decimal literal `mantissa × 10^(±d)`.  For a negative
exponent the quotient is taken with 64 extra bits and a sticky bit, which rounds
as the exact quotient does. -/
def ofDecimal (mantissa : Nat) (negExp : Bool) (d : Nat) : JsNumber :=
  if negExp then
    let s := 64 + bitLength (10 ^ d)
    let x := (mantissa * 2 ^ s) / 10 ^ d
    let sticky := if (mantissa * 2 ^ s) % 10 ^ d = 0 then 0 else 1
    round ((2 * x + sticky : Nat) : Int) (-((s : Int) + 1))
  else round ((mantissa * 10 ^ d : Nat) : Int) 0

/-- The product of two doubles. -/
def mul (a b : JsNumber) : JsNumber :=
  round (a.m * b.m) (a.e + b.e)

/-- The sum of two doubles. -/
def add (a b : JsNumber) : JsNumber :=
  let e := if a.e ≤ b.e then a.e else b.e
  round (a.m * 2 ^ (a.e - e).toNat + b.m * 2 ^ (b.e - e).toNat) e

/-- The exact value of a double. -/
def toRat (x : JsNumber) : ℚ :=
  x.m * (2 : ℚ) ^ x.e

end JsNumber

instance : OfScientific JsNumber := ⟨JsNumber.ofDecimal⟩

instance (n : Nat) : OfNat JsNumber n := ⟨JsNumber.ofInt n⟩

instance : Mul JsNumber := ⟨JsNumber.mul⟩

instance : Add JsNumber := ⟨JsNumber.add⟩

/-- `Number.prototype.toFixed(2)`: the number of hundredths shown, the integer
nearest to `|x| × 100`, the larger one on a tie, with the sign of `x`.  (The
sign of a negative value shown as zero is not kept.) -/
def toFixed2 (x : JsNumber) : Int :=
  let n : Nat := x.m.natAbs * 100
  let h : Nat :=
    if 0 ≤ x.e then n * 2 ^ x.e.toNat
    else (2 * n + 2 ^ (-x.e).toNat) / (2 * 2 ^ (-x.e).toNat)
  if x.m < 0 then -(h : Int) else h

/-! ## Data model -/

/-- The product object handed to `addItem`. -/
structure Product where
  id : Int
  name : String
  description : String
  price : JsNumber
  type : String
deriving DecidableEq

/-- One object of `Cart.items`: the product's fields and a quantity. -/
structure Item extends Product where
  quantity : Int
deriving DecidableEq

/-- Values `JSON.parse` hands back: an array of item records, or any other value. -/
inductive JsValue where
  | items (xs : List Item)
  | other
deriving DecidableEq

/-- A text held in storage, up to what `JSON.parse` makes of it: the empty
string, a non-empty text that `JSON.parse` rejects, or a text that parses to a value. -/
inductive StoredText where
  | empty
  | malformed
  | json (v : JsValue)
deriving DecidableEq

/-- Exceptions raised while the cart runs. -/
inductive JsError where
  | syntaxError
  | typeError
deriving DecidableEq

/-- One `div.cart-item` of the rendered list. -/
structure Row where
  dataId : Int
  icon : String
  name : String
  description : String
  price : Int
  quantity : Int
deriving DecidableEq

/-- The texts the cart writes into the page. -/
structure Page where
  cartCount : Option Int
  cartItemsList : List Row
  cartItemsCount : Int
  subtotal : Int
  shipping : Int
  tax : Int
  total : Int
  checkoutDisabled : Bool
deriving DecidableEq

/-- The order summary of one checkout modal. -/
structure Modal where
  total : Int
  items : Int
deriving DecidableEq

/-- The cart object together with the parts of the browser it reads and writes. -/
structure Cart where
  items : List Item
  storage : Option StoredText
  page : Page
  modals : List Modal
  alerts : List String
  location : String
deriving DecidableEq

/-- Rewrite of the first entry that satisfies `p` (a write through the
reference returned by `find`). -/
def updateFirst (p : Item → Bool) (f : Item → Item) : List Item → List Item
  | [] => []
  | x :: xs => if p x then f x :: xs else x :: updateFirst p f xs

/-! ## Storage -/

/-- Source `loadCart` (lines 14-17), on the value of the storage slot. -/
def loadCart (storage : Option StoredText) : Except JsError JsValue :=
  match storage with
  | none => .ok (.items [])
  | some .empty => .ok (.items [])
  | some .malformed => .error .syntaxError
  | some (.json v) => .ok v

namespace Cart

/-- Source `saveCart` (lines 19-21). -/
def saveCart (c : Cart) : Cart :=
  { c with storage := some (.json (.items c.items)) }

/-! ## Totals -/

/-- Source `getTotalItems` (lines 60-62). -/
def getTotalItems (c : Cart) : Int :=
  c.items.foldl (fun total item => total + item.quantity) 0

/-- Source `getSubtotal` (lines 64-66). -/
def getSubtotal (c : Cart) : JsNumber :=
  c.items.foldl (fun total item => total + item.price * JsNumber.ofInt item.quantity) 0

/-- Source `calculateShipping` (lines 68-70). -/
def calculateShipping (c : Cart) : JsNumber :=
  if c.items.length > 0 then 5.00 else 0

/-- Source `calculateTax` (lines 72-74). -/
def calculateTax (c : Cart) : JsNumber :=
  c.getSubtotal * 0.075

/-- Source `getTotal` (lines 76-78). -/
def getTotal (c : Cart) : JsNumber :=
  c.getSubtotal + c.calculateShipping + c.calculateTax

/-! ## Rendering -/

/-- Source `updateCartCount` (lines 87-92). -/
def updateCartCount (c : Cart) : Cart :=
  match c.page.cartCount with
  | some _ => { c with page := { c.page with cartCount := some c.getTotalItems } }
  | none => c

/-- The markup of one entry in `renderCart` (lines 122-145). -/
def renderRow (item : Item) : Row :=
  { dataId := item.id
    icon := if item.type = "cake" then "birthday-cake" else "glass"
    name := item.name
    description := item.description
    price := toFixed2 item.price
    quantity := item.quantity }

/-- Source `renderCart` (lines 94-153). -/
def renderCart (c : Cart) : Cart :=
  if c.items.length = 0 then
    { c with page :=
        { c.page with
          cartItemsList := []
          cartItemsCount := 0
          subtotal := 0
          shipping := 0
          tax := 0
          total := 0
          checkoutDisabled := true } }
  else
    { c with page :=
        { c.page with
          cartItemsCount := c.getTotalItems
          cartItemsList := c.items.map renderRow
          subtotal := toFixed2 c.getSubtotal
          shipping := toFixed2 c.calculateShipping
          tax := toFixed2 c.calculateTax
          total := toFixed2 c.getTotal
          checkoutDisabled := false } }

/-! ## Mutations -/

/-- Source `addItem` (lines 23-38). -/
def addItem (c : Cart) (product : Product) (quantity : Int) : Cart :=
  let c1 : Cart :=
    match c.items.find? (fun item => item.id == product.id) with
    | some _ =>
      { c with
        items := updateFirst (fun item => item.id == product.id)
          (fun existingItem => { existingItem with quantity := existingItem.quantity + quantity })
          c.items }
    | none => { c with items := c.items ++ [{ toProduct := product, quantity := quantity }] }
  c1.saveCart.renderCart.updateCartCount

/-- A call of `addItem` with its second argument given (`some`) or omitted
(`none`): the default parameter `quantity = 1` of line 23. -/
def addItemOpt (c : Cart) (product : Product) (quantity : Option Int) : Cart :=
  match quantity with
  | some q => c.addItem product q
  | none => c.addItem product 1

/-- Source `removeItem` (lines 40-45). -/
def removeItem (c : Cart) (productId : Int) : Cart :=
  let c1 : Cart := { c with items := c.items.filter (fun item => item.id != productId) }
  c1.saveCart.renderCart.updateCartCount

/-- Source `updateQuantity` (lines 47-58). -/
def updateQuantity (c : Cart) (productId : Int) (quantity : Int) : Cart :=
  match c.items.find? (fun item => item.id == productId) with
  | some _ =>
    if quantity ≤ 0 then
      c.removeItem productId
    else
      let c1 : Cart :=
        { c with
          items := updateFirst (fun item => item.id == productId)
            (fun item => { item with quantity := quantity }) c.items }
      c1.saveCart.renderCart
  | none => c

/-- Source `clearCart` (lines 80-85). -/
def clearCart (c : Cart) : Cart :=
  let c1 : Cart := { c with items := [] }
  c1.saveCart.renderCart.updateCartCount

/-! ## Checkout -/

/-- Source `createCheckoutModal` (lines 207-311): the summary written into the
modal.  Its two buttons are the clicks `closeModal` and `continueShopping`. -/
def createCheckoutModal (c : Cart) : Modal :=
  { total := toFixed2 c.getTotal, items := c.getTotalItems }

/-- Source `handleCheckout` (lines 188-205). -/
def handleCheckout (c : Cart) : Cart :=
  if c.items.length = 0 then
    { c with alerts := c.alerts ++ ["Your cart is empty!"] }
  else
    { c with modals := c.modals ++ [c.createCheckoutModal] }

/-- Handler of the modal's `.close-modal` button (lines 299-302), for the modal
at position `k` of the document body. -/
def closeModal (c : Cart) (k : Nat) : Cart :=
  let c1 : Cart := { c with modals := c.modals.eraseIdx k }
  c1.clearCart

/-- Handler of the modal's `#continueShopping` button (lines 304-308). -/
def continueShopping (c : Cart) (k : Nat) : Cart :=
  let c1 : Cart := { c with modals := c.modals.eraseIdx k }
  let c2 : Cart := c1.clearCart
  { c2 with location := "menu.html" }

/-- Handler of a click on the modal itself, outside its content (lines 200-204). -/
def clickOutside (c : Cart) (k : Nat) : Cart :=
  { c with modals := c.modals.eraseIdx k }

/-! ## Click handlers of `attachEventListeners` -/

/-- Handler of a `.decrease` button (lines 158-164). -/
def decrease (c : Cart) (productId : Int) : Cart :=
  match c.items.find? (fun item => item.id == productId) with
  | some item => if item.quantity > 1 then c.updateQuantity productId (item.quantity - 1) else c
  | none => c

/-- Handler of an `.increase` button (lines 167-173). -/
def increase (c : Cart) (productId : Int) : Cart :=
  match c.items.find? (fun item => item.id == productId) with
  | some item => c.updateQuantity productId (item.quantity + 1)
  | none => c

/-- Handler of a `.remove-btn` button (lines 176-179). -/
def removeBtn (c : Cart) (productId : Int) : Cart :=
  c.removeItem productId

/-- Source `init` (lines 8-12); `attachEventListeners` registers the handlers
and writes nothing. -/
def init (c : Cart) : Cart :=
  c.renderCart.updateCartCount

/-- Source `constructor` (lines 3-6), on a freshly loaded page.  An exception of
`loadCart` leaves the constructor.  A loaded value that is not an array of item
records has no typed cart.  On nearly all such values `init` raises a
`TypeError` (`reduce` or `toFixed` is missing), and that is what is recorded for
them; the few on which the source goes through, such as a stored JSON empty
string on a page without the badge, are not told apart. -/
def construct (storage : Option StoredText) (page : Page) (location : String) :
    Except JsError Cart :=
  match loadCart storage with
  | .error e => .error e
  | .ok (.items xs) =>
    .ok (init
      { items := xs, storage := storage, page := page, modals := [], alerts := [],
        location := location })
  | .ok .other => .error .typeError

end Cart

/-! ## Sequences of calls -/

/-- A call of one of the four mutating methods. -/
inductive CartOp where
  | addItem (product : Product) (quantity : Int)
  | removeItem (productId : Int)
  | updateQuantity (productId : Int) (quantity : Int)
  | clearCart
deriving DecidableEq

/-- The effect of one call. -/
def CartOp.run : CartOp → Cart → Cart
  | .addItem product quantity, c => c.addItem product quantity
  | .removeItem productId, c => c.removeItem productId
  | .updateQuantity productId quantity, c => c.updateQuantity productId quantity
  | .clearCart, c => c.clearCart

/-- The effect of a sequence of calls, first call first. -/
def runOps (c : Cart) (ops : List CartOp) : Cart :=
  ops.foldl (fun acc op => op.run acc) c

/-- No two entries share an id. -/
def DistinctIds (items : List Item) : Prop :=
  (items.map (fun item => item.id)).Nodup

instance (items : List Item) : Decidable (DistinctIds items) :=
  inferInstanceAs (Decidable (List.Nodup _))

/-- A call that `addItem` receives with a positive quantity (the other calls
take any quantity). -/
def CartOp.AddsPositive : CartOp → Prop
  | .addItem _ quantity => 0 < quantity
  | _ => True

instance : (op : CartOp) → Decidable op.AddsPositive
  | .addItem _ quantity => inferInstanceAs (Decidable (0 < quantity))
  | .removeItem _ => isTrue trivial
  | .updateQuantity _ _ => isTrue trivial
  | .clearCart => isTrue trivial

/-- Every entry has quantity at least 1. -/
def QuantitiesPositive (items : List Item) : Prop :=
  ∀ item ∈ items, 1 ≤ item.quantity

instance (items : List Item) : Decidable (QuantitiesPositive items) :=
  inferInstanceAs (Decidable (∀ item ∈ items, 1 ≤ item.quantity))

/-! ## Sample data -/

/-- A product used in the examples. -/
def velvet : Product :=
  { id := 1, name := "Red Velvet", description := "Layered cake", price := 20, type := "cake" }

/-- A second product used in the examples. -/
def latte : Product :=
  { id := 2, name := "Latte", description := "Espresso and milk", price := 4, type := "beverage" }

/-- A cart page before anything was rendered, with a badge. -/
def blankPage : Page :=
  { cartCount := some 0, cartItemsList := [], cartItemsCount := 0, subtotal := 0, shipping := 0,
    tax := 0, total := 0, checkoutDisabled := true }

/-- The cart of a first visit: nothing stored, nothing selected. -/
def emptyCart : Cart :=
  { items := [], storage := none, page := blankPage, modals := [], alerts := [],
    location := "cart.html" }

/-- A product priced 0.10. -/
def mint : Product :=
  { id := 3, name := "Mint", description := "After-dinner mint", price := 0.1, type := "cake" }

/-- A product priced 4.95. -/
def tart : Product :=
  { id := 4, name := "Lemon Tart", description := "Shortcrust and curd", price := 4.95,
    type := "cake" }

/-- A product priced 3.00. -/
def scone : Product :=
  { id := 5, name := "Scone", description := "Plain scone", price := 3, type := "cake" }

/-! ## Basic facts -/

section Basic

variable (c : Cart)

@[simp] theorem items_saveCart : c.saveCart.items = c.items := rfl

@[simp] theorem items_renderCart : c.renderCart.items = c.items := by
  unfold Cart.renderCart; split <;> rfl

@[simp] theorem items_updateCartCount : c.updateCartCount.items = c.items := by
  unfold Cart.updateCartCount; split <;> rfl

@[simp] theorem items_clearCart : c.clearCart.items = [] := by
  simp [Cart.clearCart]

@[simp] theorem items_removeItem (productId : Int) :
    (c.removeItem productId).items = c.items.filter (fun item => item.id != productId) := by
  simp [Cart.removeItem]

theorem items_addItem_of_none (product : Product) (quantity : Int)
    (h : c.items.find? (fun item => item.id == product.id) = none) :
    (c.addItem product quantity).items =
      c.items ++ [{ toProduct := product, quantity := quantity }] := by
  simp [Cart.addItem, h]

theorem items_addItem_of_some (product : Product) (quantity : Int) (found : Item)
    (h : c.items.find? (fun item => item.id == product.id) = some found) :
    (c.addItem product quantity).items =
      updateFirst (fun item => item.id == product.id)
        (fun existingItem => { existingItem with quantity := existingItem.quantity + quantity })
        c.items := by
  simp [Cart.addItem, h]

theorem items_updateQuantity_of_none (productId quantity : Int)
    (h : c.items.find? (fun item => item.id == productId) = none) :
    (c.updateQuantity productId quantity).items = c.items := by
  simp [Cart.updateQuantity, h]

theorem items_updateQuantity_of_nonpos (productId quantity : Int) (found : Item)
    (h : c.items.find? (fun item => item.id == productId) = some found) (hq : quantity ≤ 0) :
    (c.updateQuantity productId quantity).items =
      c.items.filter (fun item => item.id != productId) := by
  simp [Cart.updateQuantity, h, hq]

theorem items_updateQuantity_of_pos (productId quantity : Int) (found : Item)
    (h : c.items.find? (fun item => item.id == productId) = some found) (hq : 0 < quantity) :
    (c.updateQuantity productId quantity).items =
      updateFirst (fun item => item.id == productId)
        (fun item => { item with quantity := quantity }) c.items := by
  have hq2 : ¬ quantity ≤ 0 := not_le.mpr hq
  simp [Cart.updateQuantity, h, hq2]

end Basic

/-! ## Lists of entries -/

section Lists

variable (p : Item → Bool) (f : Item → Item)

theorem updateFirst_of_find_none (l : List Item) (h : l.find? p = none) :
    updateFirst p f l = l := by
  induction l with
  | nil => rfl
  | cons x xs ih =>
    by_cases hx : p x = true
    · simp [List.find?, hx] at h
    · have hx2 : p x = false := by simpa using hx
      rw [List.find?, hx2] at h
      simp [updateFirst, hx2, ih h]

theorem length_updateFirst (l : List Item) : (updateFirst p f l).length = l.length := by
  induction l with
  | nil => rfl
  | cons x xs ih => by_cases hx : p x = true <;> simp [updateFirst, hx, ih]

theorem map_id_updateFirst (hf : ∀ x, (f x).id = x.id) (l : List Item) :
    (updateFirst p f l).map (fun item => item.id) = l.map (fun item => item.id) := by
  induction l with
  | nil => rfl
  | cons x xs ih => by_cases hx : p x = true <;> simp [updateFirst, hx, ih, hf]

theorem mem_updateFirst (l : List Item) (y : Item) (hy : y ∈ updateFirst p f l) :
    y ∈ l ∨ ∃ x ∈ l, y = f x := by
  induction l with
  | nil => simp [updateFirst] at hy
  | cons x xs ih =>
    by_cases hx : p x = true
    · have hy2 : y = f x ∨ y ∈ xs := by simpa [updateFirst, hx] using hy
      rcases hy2 with rfl | hy
      · exact Or.inr ⟨x, List.mem_cons_self _ _, rfl⟩
      · exact Or.inl (List.mem_cons_of_mem _ hy)
    · have hx2 : p x = false := by simpa using hx
      have hy2 : y = x ∨ y ∈ updateFirst p f xs := by simpa [updateFirst, hx2] using hy
      rcases hy2 with rfl | hy
      · exact Or.inl (List.mem_cons_self _ _)
      · rcases ih hy with h | ⟨z, hz, rfl⟩
        · exact Or.inl (List.mem_cons_of_mem _ h)
        · exact Or.inr ⟨z, List.mem_cons_of_mem _ hz, rfl⟩

theorem find_id_none_iff (l : List Item) (k : Int) :
    l.find? (fun item => item.id == k) = none ↔ ∀ item ∈ l, item.id ≠ k := by
  simp [List.find?_eq_none]

theorem filter_ne_of_absent (l : List Item) (k : Int) (h : ∀ item ∈ l, item.id ≠ k) :
    l.filter (fun item => item.id != k) = l := by
  rw [List.filter_eq_self]
  intro x hx
  simpa using h x hx

theorem distinctIds_filter (l : List Item) (q : Item → Bool) (h : DistinctIds l) :
    DistinctIds (l.filter q) :=
  List.Nodup.sublist (List.Sublist.map _ (List.filter_sublist l)) h

theorem distinctIds_updateFirst (hf : ∀ x, (f x).id = x.id) (l : List Item)
    (h : DistinctIds l) : DistinctIds (updateFirst p f l) := by
  unfold DistinctIds
  rw [map_id_updateFirst p f hf l]
  exact h

theorem distinctIds_append_new (l : List Item) (x : Item) (h : DistinctIds l)
    (hx : ∀ item ∈ l, item.id ≠ x.id) : DistinctIds (l ++ [x]) := by
  unfold DistinctIds at *
  rw [List.map_append, List.nodup_append]
  refine ⟨h, by simp, ?_⟩
  intro a ha hb
  simp only [List.map_cons, List.map_nil, List.mem_singleton] at hb
  rcases List.mem_map.mp ha with ⟨y, hy, rfl⟩
  exact hx y hy hb

end Lists

/-! ## Each call keeps the ids distinct -/

theorem distinctIds_addItem (c : Cart) (product : Product) (quantity : Int)
    (h : DistinctIds c.items) : DistinctIds (c.addItem product quantity).items := by
  cases hfind : c.items.find? (fun item => item.id == product.id) with
  | none =>
    rw [items_addItem_of_none c product quantity hfind]
    exact distinctIds_append_new _ _ h ((find_id_none_iff _ _).mp hfind)
  | some found =>
    rw [items_addItem_of_some c product quantity found hfind]
    refine distinctIds_updateFirst _ _ ?_ _ h
    intro x
    rfl

theorem distinctIds_removeItem (c : Cart) (productId : Int) (h : DistinctIds c.items) :
    DistinctIds (c.removeItem productId).items := by
  rw [items_removeItem]
  exact distinctIds_filter _ _ h

theorem distinctIds_updateQuantity (c : Cart) (productId quantity : Int)
    (h : DistinctIds c.items) : DistinctIds (c.updateQuantity productId quantity).items := by
  cases hfind : c.items.find? (fun item => item.id == productId) with
  | none => rw [items_updateQuantity_of_none c productId quantity hfind]; exact h
  | some found =>
    by_cases hq : quantity ≤ 0
    · rw [items_updateQuantity_of_nonpos c productId quantity found hfind hq]
      exact distinctIds_filter _ _ h
    · rw [items_updateQuantity_of_pos c productId quantity found hfind (not_le.mp hq)]
      refine distinctIds_updateFirst _ _ ?_ _ h
      intro x
      rfl

theorem distinctIds_clearCart (c : Cart) : DistinctIds c.clearCart.items := by
  rw [items_clearCart]
  exact List.nodup_nil

theorem distinctIds_run (op : CartOp) (c : Cart) (h : DistinctIds c.items) :
    DistinctIds (op.run c).items := by
  cases op with
  | addItem product quantity => exact distinctIds_addItem c product quantity h
  | removeItem productId => exact distinctIds_removeItem c productId h
  | updateQuantity productId quantity => exact distinctIds_updateQuantity c productId quantity h
  | clearCart => exact distinctIds_clearCart c

theorem distinctIds_runOps (ops : List CartOp) (c : Cart) (h : DistinctIds c.items) :
    DistinctIds (runOps c ops).items := by
  induction ops generalizing c with
  | nil => exact h
  | cons op rest ih => exact ih (op.run c) (distinctIds_run op c h)

/-- C1 (uniqueness invariant).  From a cart without entries, every finite
sequence of `addItem`, `removeItem`, `updateQuantity` and `clearCart` calls, with
any products and any quantities, ends in a cart in which no two entries share an
id; and each of the four calls takes a cart with pairwise-distinct ids to a cart
with pairwise-distinct ids. -/
theorem uniqueness_invariant :
    (∀ (c : Cart) (ops : List CartOp), c.items = [] → DistinctIds (runOps c ops).items) ∧
    (∀ c : Cart, DistinctIds c.items →
      (∀ (product : Product) (quantity : Int), DistinctIds (c.addItem product quantity).items) ∧
      (∀ productId : Int, DistinctIds (c.removeItem productId).items) ∧
      (∀ productId quantity : Int, DistinctIds (c.updateQuantity productId quantity).items) ∧
      DistinctIds c.clearCart.items) := by
  refine ⟨?_, ?_⟩
  · intro c ops h0
    apply distinctIds_runOps
    rw [h0]
    exact List.nodup_nil
  · intro c h
    exact ⟨fun product quantity => distinctIds_addItem c product quantity h,
      fun productId => distinctIds_removeItem c productId h,
      fun productId quantity => distinctIds_updateQuantity c productId quantity h,
      distinctIds_clearCart c⟩

/-! ## Adding the same product twice -/

theorem updateFirst_append_last (p : Item → Bool) (f : Item → Item) (l : List Item) (x : Item)
    (hl : ∀ y ∈ l, p y = false) (hx : p x = true) :
    updateFirst p f (l ++ [x]) = l ++ [f x] := by
  induction l with
  | nil => simp [updateFirst, hx]
  | cons y ys ih =>
    have hy : p y = false := hl y (List.mem_cons_self _ _)
    have hys : ∀ z ∈ ys, p z = false := fun z hz => hl z (List.mem_cons_of_mem _ hz)
    simp [updateFirst, hy, ih hys]

theorem find_append_last (p : Item → Bool) (l : List Item) (x : Item)
    (hl : ∀ y ∈ l, p y = false) (hx : p x = true) :
    (l ++ [x]).find? p = some x := by
  induction l with
  | nil => simp [List.find?, hx]
  | cons y ys ih =>
    have hy : p y = false := hl y (List.mem_cons_self _ _)
    have hys : ∀ z ∈ ys, p z = false := fun z hz => hl z (List.mem_cons_of_mem _ hz)
    simp [List.find?, hy, ih hys]

theorem items_addItem_twice (c : Cart) (P : Product) (a b : Int)
    (hP : ∀ item ∈ c.items, item.id ≠ P.id) :
    ((c.addItem P a).addItem P b).items = c.items ++ [{ toProduct := P, quantity := a + b }] := by
  have hnone : c.items.find? (fun item => item.id == P.id) = none :=
    (find_id_none_iff _ _).mpr hP
  have hfalse : ∀ y ∈ c.items, (fun item : Item => item.id == P.id) y = false := by
    intro y hy
    simpa using hP y hy
  have hfirst := items_addItem_of_none c P a hnone
  have hfound : (c.addItem P a).items.find? (fun item => item.id == P.id)
      = some { toProduct := P, quantity := a } := by
    rw [hfirst]
    exact find_append_last _ _ _ hfalse (by simp)
  rw [items_addItem_of_some (c.addItem P a) P b _ hfound, hfirst]
  exact updateFirst_append_last _ _ _ _ hfalse (by simp)

/-- C2 (merge law).  On a cart that has no entry with the id of `P`, for
positive `a` and `b`, `addItem(P, a)` followed by `addItem(P, b)` leaves exactly
one entry with that id, and its quantity is `a + b`: the entries with the id of
`P` are the single record of `P` with quantity `a + b`. -/
theorem merge_law (c : Cart) (P : Product) (a b : Int)
    (hP : ∀ item ∈ c.items, item.id ≠ P.id) (ha : 0 < a) (hb : 0 < b) :
    ((c.addItem P a).addItem P b).items.filter (fun item => item.id == P.id)
      = [{ toProduct := P, quantity := a + b }] := by
  have _hpos : 0 < a + b := add_pos ha hb
  rw [items_addItem_twice c P a b hP, List.filter_append]
  have hnil : c.items.filter (fun item => item.id == P.id) = [] := by
    rw [List.filter_eq_nil_iff]
    intro y hy
    simpa using hP y hy
  rw [hnil]
  simp

/-- The merge law at a cart that holds another product: a latte, then the cake
twice, with 2 and 3 pieces. -/
theorem merge_law_witness :
    (∀ item ∈ (emptyCart.addItem latte 1).items, item.id ≠ velvet.id) ∧
    ((((emptyCart.addItem latte 1).addItem velvet 2).addItem velvet 3).items.filter
      (fun item => item.id == velvet.id)) = [{ toProduct := velvet, quantity := 2 + 3 }] :=
  ⟨by decide, merge_law (emptyCart.addItem latte 1) velvet 2 3 (by decide) (by decide) (by decide)⟩

/-! ## Totals -/

theorem foldl_add_eq_sum {α : Type} [AddCommMonoid α] (g : Item → α) (l : List Item) (a : α) :
    l.foldl (fun total item => total + g item) a = a + (l.map g).sum := by
  induction l generalizing a with
  | nil => simp
  | cons x xs ih => simp [List.foldl, ih, add_assoc]

theorem getTotalItems_eq_sum (c : Cart) :
    c.getTotalItems = (c.items.map (fun item => item.quantity)).sum := by
  unfold Cart.getTotalItems
  rw [foldl_add_eq_sum (fun item => item.quantity) c.items 0, zero_add]

theorem getSubtotal_append (c : Cart) (item : Item) :
    Cart.getSubtotal { c with items := c.items ++ [item] }
      = c.getSubtotal + item.price * JsNumber.ofInt item.quantity := by
  simp [Cart.getSubtotal, List.foldl_append]

theorem calculateShipping_eq (c : Cart) :
    c.calculateShipping = (if c.items ≠ [] then 5.00 else 0) := by
  unfold Cart.calculateShipping
  cases h : c.items with
  | nil => simp
  | cons x xs => simp

/-- C3, as stated, fails: the totals are computed in doubles and need not be the
exact sums and products.  For one item of price 0.1 and quantity 3
`getSubtotal()` is 0.30000000000000004, which is neither the exact product of
the price held and 3 nor 3/10; for one item of price 3 and quantity 1
`calculateTax()` is 0.22499999999999998, not the exact `getSubtotal() × 0.075`,
which is 9/40. -/
theorem totals_not_exact :
    Cart.getSubtotal { emptyCart with items := [{ toProduct := mint, quantity := 3 }] }
      = ⟨1351079888211149, -52⟩ ∧
    (Cart.getSubtotal { emptyCart with items := [{ toProduct := mint, quantity := 3 }] }).toRat
      ≠ mint.price.toRat * 3 ∧
    (Cart.getSubtotal { emptyCart with items := [{ toProduct := mint, quantity := 3 }] }).toRat
      ≠ 3 / 10 ∧
    Cart.getSubtotal { emptyCart with items := [{ toProduct := scone, quantity := 1 }] }
      = ⟨3, 0⟩ ∧
    Cart.calculateTax { emptyCart with items := [{ toProduct := scone, quantity := 1 }] }
      = ⟨2026619832316723, -53⟩ ∧
    (Cart.calculateTax { emptyCart with items := [{ toProduct := scone, quantity := 1 }] }).toRat
      ≠ 3 * (75 / 1000) := by
  have hsub : Cart.getSubtotal { emptyCart with items := [{ toProduct := mint, quantity := 3 }] }
      = ⟨1351079888211149, -52⟩ := by decide
  have hprice : mint.price = ⟨3602879701896397, -55⟩ := by decide
  have htax : Cart.calculateTax { emptyCart with items := [{ toProduct := scone, quantity := 1 }] }
      = ⟨2026619832316723, -53⟩ := by decide
  refine ⟨hsub, ?_, ?_, by decide, htax, ?_⟩
  · rw [hsub, hprice]
    norm_num [JsNumber.toRat]
  · rw [hsub]
    norm_num [JsNumber.toRat]
  · rw [htax]
    norm_num [JsNumber.toRat]

/-- C3, amended.  For every cart `getSubtotal()` is the sum of price × quantity
accumulated from left to right in double arithmetic (0 for no items; one more
item adds its product to the subtotal of the items before it),
`calculateShipping()` is 5 on a non-empty cart and 0 on an empty one,
`calculateTax()` is the double product `getSubtotal() × 0.075` and `getTotal()`
is the double sum `(getSubtotal() + calculateShipping()) + calculateTax()`.  No
operation rounds for a cart with one item of price 20.00 and quantity 2:
subtotal 40.00, shipping 5.00, tax 3.00 and total 48.00, exactly. -/
theorem totals_formulas (c : Cart) (item : Item) :
    Cart.getSubtotal { c with items := [] } = 0 ∧
    Cart.getSubtotal { c with items := c.items ++ [item] }
      = c.getSubtotal + item.price * JsNumber.ofInt item.quantity ∧
    c.calculateShipping = (if c.items ≠ [] then 5.00 else 0) ∧
    c.calculateTax = c.getSubtotal * 0.075 ∧
    c.getTotal = c.getSubtotal + c.calculateShipping + c.calculateTax ∧
    Cart.getSubtotal { c with items := [{ item with price := 20.00, quantity := 2 }] } = 40.00 ∧
    Cart.calculateShipping { c with items := [{ item with price := 20.00, quantity := 2 }] } = 5.00 ∧
    Cart.calculateTax { c with items := [{ item with price := 20.00, quantity := 2 }] } = 3.00 ∧
    Cart.getTotal { c with items := [{ item with price := 20.00, quantity := 2 }] } = 48.00 ∧
    (40.00 : JsNumber).toRat = 40 ∧ (5.00 : JsNumber).toRat = 5 ∧
    (3.00 : JsNumber).toRat = 3 ∧ (48.00 : JsNumber).toRat = 48 := by
  refine ⟨rfl, getSubtotal_append c item, calculateShipping_eq c, rfl, rfl, ?_, ?_, ?_, ?_, ?_,
    ?_, ?_, ?_⟩
  · show (0 : JsNumber) + 20.00 * JsNumber.ofInt 2 = 40.00
    decide
  · show (5.00 : JsNumber) = 5.00
    rfl
  · show ((0 : JsNumber) + 20.00 * JsNumber.ofInt 2) * 0.075 = 3.00
    decide
  · show (0 : JsNumber) + 20.00 * JsNumber.ofInt 2 + 5.00
      + ((0 : JsNumber) + 20.00 * JsNumber.ofInt 2) * 0.075 = 48.00
    decide
  · have h40 : (40.00 : JsNumber) = ⟨5, 3⟩ := by decide
    rw [h40]
    norm_num [JsNumber.toRat]
  · have h5 : (5.00 : JsNumber) = ⟨5, 0⟩ := by decide
    rw [h5]
    norm_num [JsNumber.toRat]
  · have h3 : (3.00 : JsNumber) = ⟨3, 0⟩ := by decide
    rw [h3]
    norm_num [JsNumber.toRat]
  · have h48 : (48.00 : JsNumber) = ⟨3, 4⟩ := by decide
    rw [h48]
    norm_num [JsNumber.toRat]

/-! ## Loading from storage -/

@[simp] theorem items_init (c : Cart) : c.init.items = c.items := by
  simp [Cart.init]

/-- C4, as stated, fails.  A stored text that `JSON.parse` rejects makes
`loadCart()` fail, and the construction of the cart with it; a stored text that
parses to something other than a list of items makes `loadCart()` return that
value, not the empty cart. -/
theorem corrupt_storage_not_recovered :
    loadCart (some StoredText.malformed) = Except.error JsError.syntaxError ∧
    Cart.construct (some StoredText.malformed) blankPage "cart.html"
      = Except.error JsError.syntaxError ∧
    loadCart (some (StoredText.json JsValue.other)) = Except.ok JsValue.other ∧
    loadCart (some (StoredText.json JsValue.other)) ≠ Except.ok (JsValue.items []) := by
  refine ⟨rfl, rfl, rfl, ?_⟩
  intro h
  cases h

/-- C4, amended.  With nothing stored, or the empty string stored, `loadCart()`
returns the empty list and the construction of the cart succeeds with no items.
A stored text that parses is returned as parsed, without validation, so that a
stored list of items is loaded as it is.  A stored text that does not parse
makes `loadCart()`, and the constructor, fail with the exception of
`JSON.parse`. -/
theorem load_cart_cases (page : Page) (location : String) :
    loadCart none = Except.ok (JsValue.items []) ∧
    loadCart (some StoredText.empty) = Except.ok (JsValue.items []) ∧
    Except.map Cart.items (Cart.construct none page location) = Except.ok [] ∧
    Except.map Cart.items (Cart.construct (some StoredText.empty) page location) = Except.ok [] ∧
    (∀ v : JsValue, loadCart (some (StoredText.json v)) = Except.ok v) ∧
    (∀ xs : List Item,
      Except.map Cart.items (Cart.construct (some (StoredText.json (JsValue.items xs))) page location)
        = Except.ok xs) ∧
    loadCart (some StoredText.malformed) = Except.error JsError.syntaxError ∧
    Cart.construct (some StoredText.malformed) page location
      = Except.error JsError.syntaxError := by
  refine ⟨rfl, rfl, ?_, ?_, fun _ => rfl, ?_, rfl, rfl⟩
  · simp [Cart.construct, loadCart, Except.map]
  · simp [Cart.construct, loadCart, Except.map]
  · intro xs
    simp [Cart.construct, loadCart, Except.map]

/-! ## Checkout -/

/-- C5 fails on the code for the click outside the modal content.  On a cart
with two pieces of one cake, after `handleCheckout()`, the close button and
'Continue Shopping' remove the modal and empty the cart, while the click
outside removes the modal and leaves the two pieces in the cart. -/
theorem click_outside_keeps_items :
    (((emptyCart.addItem velvet 2).handleCheckout).closeModal 0).modals = [] ∧
    (((emptyCart.addItem velvet 2).handleCheckout).closeModal 0).items = [] ∧
    (((emptyCart.addItem velvet 2).handleCheckout).continueShopping 0).modals = [] ∧
    (((emptyCart.addItem velvet 2).handleCheckout).continueShopping 0).items = [] ∧
    (((emptyCart.addItem velvet 2).handleCheckout).clickOutside 0).modals = [] ∧
    (((emptyCart.addItem velvet 2).handleCheckout).clickOutside 0).items
      = [{ toProduct := velvet, quantity := 2 }] := by
  decide

/-- C6 (checkout guard).  On an empty cart `handleCheckout()` raises the alert
'Your cart is empty!', opens no modal and changes nothing else.  On a non-empty
cart it opens one modal whose summary shows `getTotal()` (with two decimals) and
`getTotalItems()` of the cart at that moment, raises no alert and leaves the
items, the storage, the page and the location as they were. -/
theorem checkout_guard (c : Cart) :
    (c.items = [] →
      c.handleCheckout = { c with alerts := c.alerts ++ ["Your cart is empty!"] } ∧
      c.handleCheckout.modals = c.modals ∧ c.handleCheckout.items = c.items) ∧
    (c.items ≠ [] →
      c.handleCheckout.modals
        = c.modals ++ [{ total := toFixed2 c.getTotal, items := c.getTotalItems }] ∧
      c.handleCheckout.items = c.items ∧ c.handleCheckout.alerts = c.alerts ∧
      c.handleCheckout.storage = c.storage ∧ c.handleCheckout.page = c.page ∧
      c.handleCheckout.location = c.location) := by
  constructor
  · intro h
    simp [Cart.handleCheckout, h]
  · intro h
    have hlen : ¬ c.items.length = 0 := by
      intro h0
      exact h (List.length_eq_zero.mp h0)
    simp [Cart.handleCheckout, hlen, Cart.createCheckoutModal]

/-- The checkout guard at the empty cart and at a cart with two pieces of cake
(total 40 + 5 + 3 = 48.00, that is 4800 hundredths, and 2 items). -/
theorem checkout_guard_witness :
    emptyCart.handleCheckout.alerts = ["Your cart is empty!"] ∧
    emptyCart.handleCheckout.modals = [] ∧
    (emptyCart.addItem velvet 2).handleCheckout.modals = [{ total := 4800, items := 2 }] ∧
    (emptyCart.addItem velvet 2).handleCheckout.items = [{ toProduct := velvet, quantity := 2 }] := by
  have h1 := (checkout_guard emptyCart).1 rfl
  have h2 := (checkout_guard (emptyCart.addItem velvet 2)).2 (by decide)
  have hitems : (emptyCart.addItem velvet 2).items = [{ toProduct := velvet, quantity := 2 }] := by
    decide
  have hmodals : (emptyCart.addItem velvet 2).modals = [] := by decide
  have htotal : (emptyCart.addItem velvet 2).getTotal = 48 := by
    unfold Cart.getTotal Cart.calculateTax Cart.calculateShipping Cart.getSubtotal
    rw [hitems]
    decide
  have hcount : (emptyCart.addItem velvet 2).getTotalItems = 2 := by
    simp [Cart.getTotalItems, hitems]
  have hshown : toFixed2 48 = 4800 := by decide
  refine ⟨?_, ?_, ?_, ?_⟩
  · rw [h1.1]; rfl
  · rw [h1.2.1]; rfl
  · rw [h2.1, hmodals, htotal, hcount, hshown]; rfl
  · rw [h2.2.1]; exact hitems

/-! ## Quantities that are not positive -/

theorem absent_after_filter (l : List Item) (k : Int) :
    ∀ item ∈ l.filter (fun item => item.id != k), item.id ≠ k := by
  intro item hitem
  have h := (List.mem_filter.mp hitem).2
  simpa using h

/-- C7 (zero-quantity removal).  For every cart, every id and every quantity
`q ≤ 0`, after `updateQuantity(id, q)` no entry has that id, and the items are
those that `removeItem(id)` produces from the same cart. -/
theorem zero_quantity_removal (c : Cart) (productId q : Int) (hq : q ≤ 0) :
    (∀ item ∈ (c.updateQuantity productId q).items, item.id ≠ productId) ∧
    (c.updateQuantity productId q).items = (c.removeItem productId).items := by
  cases hfind : c.items.find? (fun item => item.id == productId) with
  | none =>
    have habsent := (find_id_none_iff _ _).mp hfind
    rw [items_updateQuantity_of_none c productId q hfind, items_removeItem,
      filter_ne_of_absent _ _ habsent]
    exact ⟨habsent, rfl⟩
  | some found =>
    rw [items_updateQuantity_of_nonpos c productId q found hfind hq, items_removeItem]
    exact ⟨absent_after_filter _ _, rfl⟩

/-- Zero-quantity removal on a cart with a latte and two pieces of cake: setting
the cake to 0 leaves the latte alone. -/
theorem zero_quantity_removal_witness :
    (0 : Int) ≤ 0 ∧
    (((emptyCart.addItem latte 1).addItem velvet 2).updateQuantity 1 0).items
      = [{ toProduct := latte, quantity := 1 }] ∧
    (∀ item ∈ (((emptyCart.addItem latte 1).addItem velvet 2).updateQuantity 1 0).items,
      item.id ≠ 1) :=
  ⟨le_refl 0,
    ((zero_quantity_removal ((emptyCart.addItem latte 1).addItem velvet 2) 1 0 (le_refl 0)).2).trans
      (by decide),
    (zero_quantity_removal ((emptyCart.addItem latte 1).addItem velvet 2) 1 0 (le_refl 0)).1⟩

/-! ## Quantities stay positive -/

theorem quantitiesPositive_addItem (c : Cart) (product : Product) (quantity : Int)
    (hq : 0 < quantity) (h : QuantitiesPositive c.items) :
    QuantitiesPositive (c.addItem product quantity).items := by
  cases hfind : c.items.find? (fun item => item.id == product.id) with
  | none =>
    rw [items_addItem_of_none c product quantity hfind]
    intro item hitem
    rcases List.mem_append.mp hitem with hold | hnew
    · exact h item hold
    · rw [List.mem_singleton] at hnew
      rw [hnew]
      exact hq
  | some found =>
    rw [items_addItem_of_some c product quantity found hfind]
    intro item hitem
    rcases mem_updateFirst _ _ _ _ hitem with hold | ⟨x, hx, rfl⟩
    · exact h item hold
    · have hx1 := h x hx
      show 1 ≤ x.quantity + quantity
      omega

theorem quantitiesPositive_removeItem (c : Cart) (productId : Int)
    (h : QuantitiesPositive c.items) : QuantitiesPositive (c.removeItem productId).items := by
  rw [items_removeItem]
  intro item hitem
  exact h item (List.mem_filter.mp hitem).1

theorem quantitiesPositive_updateQuantity (c : Cart) (productId quantity : Int)
    (h : QuantitiesPositive c.items) :
    QuantitiesPositive (c.updateQuantity productId quantity).items := by
  cases hfind : c.items.find? (fun item => item.id == productId) with
  | none => rw [items_updateQuantity_of_none c productId quantity hfind]; exact h
  | some found =>
    by_cases hq : quantity ≤ 0
    · rw [items_updateQuantity_of_nonpos c productId quantity found hfind hq]
      intro item hitem
      exact h item (List.mem_filter.mp hitem).1
    · rw [items_updateQuantity_of_pos c productId quantity found hfind (not_le.mp hq)]
      intro item hitem
      rcases mem_updateFirst _ _ _ _ hitem with hold | ⟨x, _, rfl⟩
      · exact h item hold
      · show 1 ≤ quantity
        omega

theorem quantitiesPositive_run (op : CartOp) (c : Cart) (hop : op.AddsPositive)
    (h : QuantitiesPositive c.items) : QuantitiesPositive (op.run c).items := by
  cases op with
  | addItem product quantity => exact quantitiesPositive_addItem c product quantity hop h
  | removeItem productId => exact quantitiesPositive_removeItem c productId h
  | updateQuantity productId quantity => exact quantitiesPositive_updateQuantity c productId quantity h
  | clearCart =>
    show QuantitiesPositive c.clearCart.items
    rw [items_clearCart]
    intro item hitem
    cases hitem

theorem quantitiesPositive_runOps (ops : List CartOp) (c : Cart)
    (hops : ∀ op ∈ ops, op.AddsPositive) (h : QuantitiesPositive c.items) :
    QuantitiesPositive (runOps c ops).items := by
  induction ops generalizing c with
  | nil => exact h
  | cons op rest ih =>
    exact ih (op.run c) (fun o ho => hops o (List.mem_cons_of_mem _ ho))
      (quantitiesPositive_run op c (hops op (List.mem_cons_self _ _)) h)

/-- C8 (quantity positivity invariant).  From a cart without entries, after
every finite sequence of `addItem` calls with a positive quantity and of
`removeItem`, `updateQuantity` (any integer quantity) and `clearCart` calls,
every entry of `items` has quantity at least 1. -/
theorem quantity_positivity_invariant (c : Cart) (ops : List CartOp) (hempty : c.items = [])
    (hops : ∀ op ∈ ops, op.AddsPositive) :
    ∀ item ∈ (runOps c ops).items, 1 ≤ item.quantity := by
  apply quantitiesPositive_runOps ops c hops
  rw [hempty]
  intro item hitem
  cases hitem

/-- The positivity invariant along a run that merges, sets a quantity to a
negative value and to a positive one, and removes. -/
theorem quantity_positivity_invariant_witness :
    emptyCart.items = [] ∧
    (runOps emptyCart
      [CartOp.addItem velvet 2, CartOp.addItem latte 1, CartOp.addItem velvet 3,
        CartOp.updateQuantity 2 (-4), CartOp.addItem latte 2, CartOp.updateQuantity 1 7,
        CartOp.removeItem 5]).items
      = [{ toProduct := velvet, quantity := 7 }, { toProduct := latte, quantity := 2 }] ∧
    (∀ item ∈ (runOps emptyCart
      [CartOp.addItem velvet 2, CartOp.addItem latte 1, CartOp.addItem velvet 3,
        CartOp.updateQuantity 2 (-4), CartOp.addItem latte 2, CartOp.updateQuantity 1 7,
        CartOp.removeItem 5]).items, 1 ≤ item.quantity) :=
  ⟨rfl, by decide,
    quantity_positivity_invariant emptyCart
      [CartOp.addItem velvet 2, CartOp.addItem latte 1, CartOp.addItem velvet 3,
        CartOp.updateQuantity 2 (-4), CartOp.addItem latte 2, CartOp.updateQuantity 1 7,
        CartOp.removeItem 5] rfl (by decide)⟩

/-! ## Unknown ids -/

/-- C9 (unknown id is a no-op).  For every cart and every id that no entry has,
`removeItem(id)` leaves the items as they are, same entries, same quantities,
same order, and `updateQuantity(id, q)` leaves the whole cart as it is, for
every `q`. -/
theorem unknown_id_noop (c : Cart) (productId : Int)
    (habsent : ∀ item ∈ c.items, item.id ≠ productId) :
    (c.removeItem productId).items = c.items ∧
    (∀ q : Int, c.updateQuantity productId q = c) := by
  constructor
  · rw [items_removeItem]
    exact filter_ne_of_absent _ _ habsent
  · intro q
    have hfind := (find_id_none_iff c.items productId).mpr habsent
    simp [Cart.updateQuantity, hfind]

/-- The no-op at id 5 on a cart with a latte and two pieces of cake. -/
theorem unknown_id_noop_witness :
    (∀ item ∈ ((emptyCart.addItem latte 1).addItem velvet 2).items, item.id ≠ 5) ∧
    (((emptyCart.addItem latte 1).addItem velvet 2).removeItem 5).items
      = [{ toProduct := latte, quantity := 1 }, { toProduct := velvet, quantity := 2 }] ∧
    ((emptyCart.addItem latte 1).addItem velvet 2).updateQuantity 5 (-3)
      = (emptyCart.addItem latte 1).addItem velvet 2 :=
  ⟨by decide,
    ((unknown_id_noop ((emptyCart.addItem latte 1).addItem velvet 2) 5 (by decide)).1).trans
      (by decide),
    (unknown_id_noop ((emptyCart.addItem latte 1).addItem velvet 2) 5 (by decide)).2 (-3)⟩

/-! ## The quantity buttons -/

theorem find_updateFirst (p : Item → Bool) (f : Item → Item) (hpf : ∀ x, p (f x) = p x)
    (l : List Item) : (updateFirst p f l).find? p = (l.find? p).map f := by
  induction l with
  | nil => rfl
  | cons x xs ih =>
    by_cases hx : p x = true
    · simp [updateFirst, List.find?, hx, hpf]
    · have hx2 : p x = false := by simpa using hx
      simp [updateFirst, List.find?, hx2, ih]

theorem items_decrease_of_gt (c : Cart) (e : Item)
    (hfirst : c.items.find? (fun item => item.id == e.id) = some e) (hq : 1 < e.quantity) :
    (c.decrease e.id).items =
      updateFirst (fun item => item.id == e.id)
        (fun item => { item with quantity := e.quantity - 1 }) c.items := by
  have hstep : c.decrease e.id = c.updateQuantity e.id (e.quantity - 1) := by
    simp [Cart.decrease, hfirst, hq]
  rw [hstep]
  exact items_updateQuantity_of_pos c e.id (e.quantity - 1) e hfirst (by omega)

theorem items_increase_of_nonneg (c : Cart) (e : Item)
    (hfirst : c.items.find? (fun item => item.id == e.id) = some e) (hq : 0 ≤ e.quantity) :
    (c.increase e.id).items =
      updateFirst (fun item => item.id == e.id)
        (fun item => { item with quantity := e.quantity + 1 }) c.items := by
  have hstep : c.increase e.id = c.updateQuantity e.id (e.quantity + 1) := by
    simp [Cart.increase, hfirst]
  rw [hstep]
  exact items_updateQuantity_of_pos c e.id (e.quantity + 1) e hfirst (by omega)

/-- The quantity buttons on the entry `find` returns, the first one with its id:
minus leaves the cart alone at quantity 1 and rewrites the entry with `n - 1`
for `n > 1`; plus rewrites it with `n + 1` for `n ≥ 0`. -/
theorem buttons_on_first_entry (c : Cart) (e : Item)
    (hfirst : c.items.find? (fun item => item.id == e.id) = some e) :
    (e.quantity = 1 → c.decrease e.id = c) ∧
    (1 < e.quantity →
      (c.decrease e.id).items =
        updateFirst (fun item => item.id == e.id)
          (fun item => { item with quantity := e.quantity - 1 }) c.items ∧
      (c.decrease e.id).items.find? (fun item => item.id == e.id)
        = some { e with quantity := e.quantity - 1 }) ∧
    (0 ≤ e.quantity →
      (c.increase e.id).items =
        updateFirst (fun item => item.id == e.id)
          (fun item => { item with quantity := e.quantity + 1 }) c.items ∧
      (c.increase e.id).items.find? (fun item => item.id == e.id)
        = some { e with quantity := e.quantity + 1 }) := by
  refine ⟨?_, ?_, ?_⟩
  · intro h1
    simp [Cart.decrease, hfirst, h1]
  · intro hq
    have hitems := items_decrease_of_gt c e hfirst hq
    refine ⟨hitems, ?_⟩
    have hkeep := find_updateFirst (fun item => item.id == e.id)
      (fun item => { item with quantity := e.quantity - 1 }) (fun _ => rfl) c.items
    rw [hitems, hkeep, hfirst]
    rfl
  · intro hq
    have hitems := items_increase_of_nonneg c e hfirst hq
    refine ⟨hitems, ?_⟩
    have hkeep := find_updateFirst (fun item => item.id == e.id)
      (fun item => { item with quantity := e.quantity + 1 }) (fun _ => rfl) c.items
    rw [hitems, hkeep, hfirst]
    rfl

/-! ## What the rendering steps leave alone -/

section Frame

variable (c : Cart)

@[simp] theorem storage_saveCart : c.saveCart.storage = some (.json (.items c.items)) := rfl

@[simp] theorem storage_renderCart : c.renderCart.storage = c.storage := by
  unfold Cart.renderCart; split <;> rfl

@[simp] theorem storage_updateCartCount : c.updateCartCount.storage = c.storage := by
  unfold Cart.updateCartCount; split <;> rfl

@[simp] theorem location_saveCart : c.saveCart.location = c.location := rfl

@[simp] theorem location_renderCart : c.renderCart.location = c.location := by
  unfold Cart.renderCart; split <;> rfl

@[simp] theorem location_updateCartCount : c.updateCartCount.location = c.location := by
  unfold Cart.updateCartCount; split <;> rfl

@[simp] theorem modals_saveCart : c.saveCart.modals = c.modals := rfl

@[simp] theorem modals_renderCart : c.renderCart.modals = c.modals := by
  unfold Cart.renderCart; split <;> rfl

@[simp] theorem modals_updateCartCount : c.updateCartCount.modals = c.modals := by
  unfold Cart.updateCartCount; split <;> rfl

theorem storage_addItem (product : Product) (quantity : Int) :
    (c.addItem product quantity).storage
      = some (.json (.items (c.addItem product quantity).items)) := by
  simp [Cart.addItem]

theorem storage_removeItem (productId : Int) :
    (c.removeItem productId).storage
      = some (.json (.items (c.removeItem productId).items)) := by
  simp [Cart.removeItem]

theorem storage_clearCart : c.clearCart.storage = some (.json (.items [])) := by
  simp [Cart.clearCart]

theorem storage_updateQuantity (productId quantity : Int)
    (hagree : c.storage = some (.json (.items c.items))) :
    (c.updateQuantity productId quantity).storage
      = some (.json (.items (c.updateQuantity productId quantity).items)) := by
  cases hfind : c.items.find? (fun item => item.id == productId) with
  | none => simpa [Cart.updateQuantity, hfind] using hagree
  | some found =>
    by_cases hq : quantity ≤ 0
    · simp [Cart.updateQuantity, hfind, hq, Cart.removeItem]
    · simp [Cart.updateQuantity, hfind, hq]

theorem location_addItem (product : Product) (quantity : Int) :
    (c.addItem product quantity).location = c.location := by
  unfold Cart.addItem
  split <;> simp

theorem location_removeItem (productId : Int) :
    (c.removeItem productId).location = c.location := by
  simp [Cart.removeItem]

theorem location_clearCart : c.clearCart.location = c.location := by
  simp [Cart.clearCart]

theorem location_updateQuantity (productId quantity : Int) :
    (c.updateQuantity productId quantity).location = c.location := by
  unfold Cart.updateQuantity
  split
  · split
    · exact location_removeItem c productId
    · simp
  · rfl

theorem location_handleCheckout : c.handleCheckout.location = c.location := by
  unfold Cart.handleCheckout; split <;> rfl

end Frame

/-! ## Persistence -/

/-- C11 (persistence after every mutation).  For every cart whose stored
snapshot agrees with its items, when `addItem`, `removeItem`, `updateQuantity`
or `clearCart` returns, the text stored under the cart key is the serialisation
of the full current `items`; after `clearCart` it is the serialisation of the
empty list. -/
theorem persistence_after_mutation (c : Cart)
    (hagree : c.storage = some (.json (.items c.items))) :
    (∀ (product : Product) (quantity : Int),
      (c.addItem product quantity).storage
        = some (.json (.items (c.addItem product quantity).items))) ∧
    (∀ productId : Int,
      (c.removeItem productId).storage
        = some (.json (.items (c.removeItem productId).items))) ∧
    (∀ productId quantity : Int,
      (c.updateQuantity productId quantity).storage
        = some (.json (.items (c.updateQuantity productId quantity).items))) ∧
    c.clearCart.storage = some (.json (.items c.clearCart.items)) ∧
    c.clearCart.storage = some (.json (.items [])) := by
  refine ⟨storage_addItem c, storage_removeItem c, ?_, ?_, storage_clearCart c⟩
  · intro productId quantity
    exact storage_updateQuantity c productId quantity hagree
  · rw [items_clearCart]
    exact storage_clearCart c

/-- Persistence on a cart with two pieces of cake, whose storage agrees with it:
after the quantity is set to 5 the stored snapshot holds the 5 pieces, and after
a call on an id that is not in the cart it still holds the 2. -/
theorem persistence_after_mutation_witness :
    (emptyCart.addItem velvet 2).storage
      = some (.json (.items (emptyCart.addItem velvet 2).items)) ∧
    ((emptyCart.addItem velvet 2).updateQuantity 1 5).storage
      = some (.json (.items [{ toProduct := velvet, quantity := 5 }])) ∧
    ((emptyCart.addItem velvet 2).updateQuantity 7 5).storage
      = some (.json (.items [{ toProduct := velvet, quantity := 2 }])) :=
  ⟨by decide,
    ((persistence_after_mutation (emptyCart.addItem velvet 2) (by decide)).2.2.1 1 5).trans
      (by decide),
    by decide⟩

/-! ## The empty cart -/

/-- C12 (empty-cart totals).  On a cart without entries, and so after
`clearCart()` on any cart, `getSubtotal()`, `calculateShipping()`,
`calculateTax()`, `getTotal()` and `getTotalItems()` are all 0. -/
theorem empty_cart_totals (c : Cart) :
    (c.items = [] →
      c.getSubtotal = 0 ∧ c.calculateShipping = 0 ∧ c.calculateTax = 0 ∧ c.getTotal = 0 ∧
      c.getTotalItems = 0) ∧
    (c.clearCart.getSubtotal = 0 ∧ c.clearCart.calculateShipping = 0 ∧
      c.clearCart.calculateTax = 0 ∧ c.clearCart.getTotal = 0 ∧
      c.clearCart.getTotalItems = 0) := by
  have hzero : ∀ d : Cart, d.items = [] →
      d.getSubtotal = 0 ∧ d.calculateShipping = 0 ∧ d.calculateTax = 0 ∧ d.getTotal = 0 ∧
      d.getTotalItems = 0 := by
    intro d hd
    simp only [Cart.getSubtotal, Cart.calculateShipping, Cart.calculateTax, Cart.getTotal,
      Cart.getTotalItems, hd, List.foldl, List.length_nil, gt_iff_lt, lt_self_iff_false,
      if_false, true_and]
    decide
  exact ⟨hzero c, hzero c.clearCart (items_clearCart c)⟩

/-- The empty-cart totals at the cart of a first visit and after clearing a
cart with two pieces of cake. -/
theorem empty_cart_totals_witness :
    emptyCart.getTotal = 0 ∧ emptyCart.getTotalItems = 0 ∧
    (emptyCart.addItem velvet 2).clearCart.getTotal = 0 ∧
    (emptyCart.addItem velvet 2).clearCart.getTotalItems = 0 :=
  ⟨((empty_cart_totals emptyCart).1 rfl).2.2.2.1, ((empty_cart_totals emptyCart).1 rfl).2.2.2.2,
    (empty_cart_totals (emptyCart.addItem velvet 2)).2.2.2.2.1,
    (empty_cart_totals (emptyCart.addItem velvet 2)).2.2.2.2.2⟩

/-! ## Navigation -/

/-- C13 (navigation only on confirm).  Of the exits from the open confirmation
only 'Continue Shopping' sets the location, to `menu.html`; the close button
and the click outside leave it as it was, and so do `addItem`, `removeItem`,
`updateQuantity`, `clearCart` and `handleCheckout`. -/
theorem navigation_only_on_confirm (c : Cart) (k : Nat) :
    (c.continueShopping k).location = "menu.html" ∧
    (c.closeModal k).location = c.location ∧
    (c.clickOutside k).location = c.location ∧
    (∀ (product : Product) (quantity : Int), (c.addItem product quantity).location = c.location) ∧
    (∀ productId : Int, (c.removeItem productId).location = c.location) ∧
    (∀ productId quantity : Int, (c.updateQuantity productId quantity).location = c.location) ∧
    c.clearCart.location = c.location ∧
    c.handleCheckout.location = c.location := by
  refine ⟨rfl, ?_, rfl, location_addItem c, location_removeItem c, location_updateQuantity c,
    location_clearCart c, location_handleCheckout c⟩
  simp [Cart.closeModal, Cart.clearCart]

/-! ## Saving and loading -/

/-- C14 (persistence round-trip).  For every snapshot, `saveCart()` followed by
`loadCart()` returns the same items in the same order, with the same prices and
quantities, and a cart constructed from the saved storage holds them; the empty
cart loads back as the empty cart.  The round trip of `JSON.stringify` and
`JSON.parse` on item records is part of the storage model. -/
theorem persistence_round_trip (c : Cart) (page : Page) (location : String) :
    loadCart c.saveCart.storage = Except.ok (JsValue.items c.items) ∧
    Except.map Cart.items (Cart.construct c.saveCart.storage page location)
      = Except.ok c.items ∧
    loadCart (Cart.saveCart { c with items := [] }).storage = Except.ok (JsValue.items []) ∧
    loadCart c.clearCart.storage = Except.ok (JsValue.items []) := by
  refine ⟨rfl, ?_, rfl, ?_⟩
  · simp [Cart.construct, loadCart, Except.map]
  · rw [storage_clearCart]
    rfl

/-! ## The badge -/

/-- C15 fails on the code for `updateQuantity` with a positive quantity.  A
cart with two pieces of cake shows 2 in the badge; after `updateQuantity(1, 5)`
the cart holds 5 pieces and the count inside the cart page shows 5, while the
badge still shows 2.  After `addItem`, `removeItem`, `updateQuantity` with a
quantity that is not positive, and `clearCart`, the badge shows the new count. -/
theorem badge_stale_after_updateQuantity :
    (emptyCart.addItem velvet 2).page.cartCount = some 2 ∧
    ((emptyCart.addItem velvet 2).updateQuantity 1 5).getTotalItems = 5 ∧
    ((emptyCart.addItem velvet 2).updateQuantity 1 5).page.cartItemsCount = 5 ∧
    ((emptyCart.addItem velvet 2).updateQuantity 1 5).page.cartCount = some 2 ∧
    ((emptyCart.addItem velvet 2).addItem velvet 3).page.cartCount = some 5 ∧
    ((emptyCart.addItem velvet 2).removeItem 1).page.cartCount = some 0 ∧
    ((emptyCart.addItem velvet 2).updateQuantity 1 0).page.cartCount = some 0 ∧
    (emptyCart.addItem velvet 2).clearCart.page.cartCount = some 0 := by
  decide

/-! ## Appending a new product -/

/-- C16 (`addItem` appends new products).  For every cart with no entry of the
id of `P` and every quantity `q`, `addItem(P, q)` yields the previous items,
unchanged and in the same order, followed by one new last entry with the fields
of `P` and quantity `q`, so the length grows by 1; with the quantity argument
omitted the new entry has quantity 1. -/
theorem addItem_appends (c : Cart) (P : Product) (q : Int)
    (hnew : ∀ item ∈ c.items, item.id ≠ P.id) :
    (c.addItem P q).items = c.items ++ [{ toProduct := P, quantity := q }] ∧
    (c.addItem P q).items.length = c.items.length + 1 ∧
    (c.addItemOpt P none).items = c.items ++ [{ toProduct := P, quantity := 1 }] := by
  have hnone : c.items.find? (fun item => item.id == P.id) = none :=
    (find_id_none_iff _ _).mpr hnew
  refine ⟨items_addItem_of_none c P q hnone, ?_, ?_⟩
  · rw [items_addItem_of_none c P q hnone]
    simp
  · exact items_addItem_of_none c P 1 hnone

/-- Appending the cake to a cart that holds a latte, with quantity 2 and with
the quantity omitted. -/
theorem addItem_appends_witness :
    (∀ item ∈ (emptyCart.addItem latte 1).items, item.id ≠ velvet.id) ∧
    ((emptyCart.addItem latte 1).addItem velvet 2).items
      = [{ toProduct := latte, quantity := 1 }, { toProduct := velvet, quantity := 2 }] ∧
    ((emptyCart.addItem latte 1).addItemOpt velvet none).items
      = [{ toProduct := latte, quantity := 1 }, { toProduct := velvet, quantity := 1 }] :=
  ⟨by decide,
    ((addItem_appends (emptyCart.addItem latte 1) velvet 2 (by decide)).1).trans (by decide),
    ((addItem_appends (emptyCart.addItem latte 1) velvet 2 (by decide)).2.2).trans (by decide)⟩

/-! ## Rewriting one entry -/

theorem updateFirst_split (p : Item → Bool) (f : Item → Item) (l : List Item) (e : Item)
    (h : l.find? p = some e) :
    ∃ pre post, l = pre ++ e :: post ∧ (∀ x ∈ pre, p x = false) ∧ p e = true ∧
      updateFirst p f l = pre ++ f e :: post := by
  induction l with
  | nil => simp at h
  | cons x xs ih =>
    by_cases hx : p x = true
    · have hxe : x = e := by simpa [List.find?, hx] using h
      subst hxe
      exact ⟨[], xs, rfl, by simp, hx, by simp [updateFirst, hx]⟩
    · have hx2 : p x = false := by simpa using hx
      rw [List.find?, hx2] at h
      rcases ih h with ⟨pre, post, hl, hpre, hpe, hupd⟩
      refine ⟨x :: pre, post, by rw [hl]; rfl, ?_, hpe, by simp [updateFirst, hx2, hupd]⟩
      intro y hy
      rcases List.mem_cons.mp hy with rfl | hy
      · exact hx2
      · exact hpre y hy

theorem find_some_of_present (l : List Item) (k : Int) (h : ∃ item ∈ l, item.id = k) :
    ∃ e, l.find? (fun item => item.id == k) = some e := by
  cases hfind : l.find? (fun item => item.id == k) with
  | some e => exact ⟨e, rfl⟩
  | none =>
    rcases h with ⟨item, hmem, hid⟩
    exact absurd hid ((find_id_none_iff l k).mp hfind item hmem)

theorem updateFirst_eq_map_of_distinct (k : Int) (f : Item → Item) (l : List Item)
    (h : DistinctIds l) :
    updateFirst (fun item => item.id == k) f l
      = l.map (fun item => if item.id = k then f item else item) := by
  induction l with
  | nil => rfl
  | cons x xs ih =>
    have hx : x.id ∉ xs.map (fun item => item.id) := (List.nodup_cons.mp h).1
    have hxs : DistinctIds xs := (List.nodup_cons.mp h).2
    by_cases hk : x.id = k
    · have hrest : xs.map (fun item => if item.id = k then f item else item) = xs := by
        conv_rhs => rw [← List.map_id xs]
        apply List.map_congr_left
        intro y hy
        have hyk : y.id ≠ k := by
          intro hyk
          exact hx (List.mem_map.mpr ⟨y, hy, hyk.trans hk.symm⟩)
        simp [hyk]
      simp [updateFirst, hk, hrest]
    · simp [updateFirst, hk, ih hxs]

theorem length_filter_of_distinct (k : Int) (l : List Item) (h : DistinctIds l)
    (hpresent : ∃ item ∈ l, item.id = k) :
    (l.filter (fun item => item.id != k)).length + 1 = l.length := by
  induction l with
  | nil =>
    rcases hpresent with ⟨item, hmem, _⟩
    cases hmem
  | cons x xs ih =>
    have hx : x.id ∉ xs.map (fun item => item.id) := (List.nodup_cons.mp h).1
    have hxs : DistinctIds xs := (List.nodup_cons.mp h).2
    by_cases hk : x.id = k
    · have habsent : ∀ item ∈ xs, item.id ≠ k := by
        intro y hy hyk
        exact hx (List.mem_map.mpr ⟨y, hy, hyk.trans hk.symm⟩)
      simp [List.filter, hk, filter_ne_of_absent xs k habsent]
    · have hrest : ∃ item ∈ xs, item.id = k := by
        rcases hpresent with ⟨item, hmem, hid⟩
        rcases List.mem_cons.mp hmem with rfl | hmem
        · exact absurd hid hk
        · exact ⟨item, hmem, hid⟩
      have hlen := ih hxs hrest
      have hkeep : (x.id != k) = true := by simpa using hk
      have hcons : (x :: xs).filter (fun item => item.id != k)
          = x :: xs.filter (fun item => item.id != k) := by
        simp only [List.filter, hkeep]
      rw [hcons, List.length_cons, List.length_cons, hlen]

/-- C17 (`addItem` merges into an existing entry).  For every cart that has an
entry with the id of `P` and every quantity `q`, `addItem(P, q)` keeps the
number and the order of the entries; the entry it finds, the first one with that
id, keeps its own fields and has its quantity increased by `q`, and every other
entry is unchanged. -/
theorem addItem_merges (c : Cart) (P : Product) (q : Int)
    (hpresent : ∃ item ∈ c.items, item.id = P.id) :
    ∃ pre e post,
      c.items = pre ++ e :: post ∧ (∀ x ∈ pre, x.id ≠ P.id) ∧ e.id = P.id ∧
      (c.addItem P q).items = pre ++ { e with quantity := e.quantity + q } :: post ∧
      (c.addItem P q).items.length = c.items.length := by
  rcases find_some_of_present c.items P.id hpresent with ⟨e, hfind⟩
  rcases updateFirst_split (fun item => item.id == P.id)
    (fun existingItem => { existingItem with quantity := existingItem.quantity + q })
    c.items e hfind with ⟨pre, post, hl, hpre, hpe, hupd⟩
  have hitems : (c.addItem P q).items = pre ++ { e with quantity := e.quantity + q } :: post := by
    rw [items_addItem_of_some c P q e hfind]
    exact hupd
  refine ⟨pre, e, post, hl, ?_, by simpa using hpe, hitems, ?_⟩
  · intro x hx
    simpa using hpre x hx
  · rw [hitems, hl]
    simp

/-- Merging into a cart with a latte and two pieces of cake: three more pieces
of a cake offered at another price leave the latte alone and the cake at its
own price, with five pieces. -/
theorem addItem_merges_witness :
    (∃ item ∈ ((emptyCart.addItem latte 1).addItem velvet 2).items, item.id = 1) ∧
    (((emptyCart.addItem latte 1).addItem velvet 2).addItem { velvet with price := 25 } 3).items
      = [{ toProduct := latte, quantity := 1 }, { toProduct := velvet, quantity := 5 }] ∧
    (∃ pre e post,
      ((emptyCart.addItem latte 1).addItem velvet 2).items = pre ++ e :: post ∧
      (∀ x ∈ pre, x.id ≠ 1) ∧ e.id = 1 ∧
      (((emptyCart.addItem latte 1).addItem velvet 2).addItem { velvet with price := 25 } 3).items
        = pre ++ { e with quantity := e.quantity + 3 } :: post ∧
      (((emptyCart.addItem latte 1).addItem velvet 2).addItem { velvet with price := 25 } 3).items.length
        = ((emptyCart.addItem latte 1).addItem velvet 2).items.length) :=
  ⟨by decide, by decide,
    addItem_merges ((emptyCart.addItem latte 1).addItem velvet 2) { velvet with price := 25 } 3
      (by decide)⟩

/-- C18 (`updateQuantity` updates in place).  For every cart with
pairwise-distinct ids, every id present in it and every quantity `q > 0`,
`updateQuantity(id, q)` keeps the number and the order of the entries, gives the
entry with that id the quantity `q` and leaves its other fields, and every other
entry, unchanged. -/
theorem updateQuantity_in_place (c : Cart) (productId q : Int)
    (hdistinct : DistinctIds c.items) (hpresent : ∃ item ∈ c.items, item.id = productId)
    (hq : 0 < q) :
    (c.updateQuantity productId q).items
      = c.items.map (fun item => if item.id = productId then { item with quantity := q } else item) ∧
    (c.updateQuantity productId q).items.length = c.items.length := by
  rcases find_some_of_present c.items productId hpresent with ⟨e, hfind⟩
  have hitems : (c.updateQuantity productId q).items
      = c.items.map (fun item => if item.id = productId then { item with quantity := q } else item) := by
    rw [items_updateQuantity_of_pos c productId q e hfind hq]
    exact updateFirst_eq_map_of_distinct productId (fun item => { item with quantity := q })
      c.items hdistinct
  refine ⟨hitems, ?_⟩
  rw [hitems, List.length_map]

/-- Updating in place on a cart with a latte and two pieces of cake: the cake is
set to 7 pieces, the latte stays. -/
theorem updateQuantity_in_place_witness :
    DistinctIds ((emptyCart.addItem latte 1).addItem velvet 2).items ∧
    (((emptyCart.addItem latte 1).addItem velvet 2).updateQuantity 1 7).items
      = [{ toProduct := latte, quantity := 1 }, { toProduct := velvet, quantity := 7 }] :=
  ⟨by decide,
    ((updateQuantity_in_place ((emptyCart.addItem latte 1).addItem velvet 2) 1 7 (by decide)
      (by decide) (by decide)).1).trans (by decide)⟩

/-! ## Removing an entry -/

theorem save_render_count_idem (d : Cart) :
    d.saveCart.renderCart.updateCartCount.saveCart.renderCart.updateCartCount
      = d.saveCart.renderCart.updateCartCount := by
  rcases d with ⟨items, storage, page, modals, alerts, location⟩
  rcases page with ⟨badge, list, count, subtotal, shipping, tax, total, disabled⟩
  cases items <;> cases badge <;> rfl

theorem removeItem_idem (c : Cart) (productId : Int) :
    (c.removeItem productId).removeItem productId = c.removeItem productId := by
  have hfilter : ∀ l : List Item,
      (l.filter (fun item => item.id != productId)).filter (fun item => item.id != productId)
        = l.filter (fun item => item.id != productId) := by
    intro l
    rw [List.filter_filter]
    simp
  have hitems := items_removeItem c productId
  have hsame : ({ c.removeItem productId with
      items := (c.removeItem productId).items.filter (fun item => item.id != productId) } : Cart)
      = c.removeItem productId := by
    rw [hitems, hfilter, ← hitems]
  show Cart.updateCartCount (Cart.renderCart (Cart.saveCart
    ({ c.removeItem productId with
      items := (c.removeItem productId).items.filter (fun item => item.id != productId) } : Cart)))
      = c.removeItem productId
  rw [hsame]
  exact save_render_count_idem _

/-- C19 (`removeItem` deletes exactly the matching entry).  For every cart and
every id, after `removeItem(id)` no entry has that id and the entries with
another id are all there, unchanged and in their order; with pairwise-distinct
ids and the id present the length decreases by exactly 1; and `removeItem(id)`
applied twice gives the same cart as applied once. -/
theorem removeItem_deletes (c : Cart) (productId : Int) :
    (∀ item ∈ (c.removeItem productId).items, item.id ≠ productId) ∧
    (c.removeItem productId).items = c.items.filter (fun item => item.id != productId) ∧
    (∀ item ∈ c.items, item.id ≠ productId → item ∈ (c.removeItem productId).items) ∧
    List.Sublist (c.removeItem productId).items c.items ∧
    (DistinctIds c.items → (∃ item ∈ c.items, item.id = productId) →
      (c.removeItem productId).items.length + 1 = c.items.length) ∧
    (c.removeItem productId).removeItem productId = c.removeItem productId := by
  refine ⟨?_, items_removeItem c productId, ?_, ?_, ?_, removeItem_idem c productId⟩
  · rw [items_removeItem]
    exact absent_after_filter _ _
  · intro item hmem hid
    rw [items_removeItem]
    exact List.mem_filter.mpr ⟨hmem, by simpa using hid⟩
  · rw [items_removeItem]
    exact List.filter_sublist _
  · intro hdistinct hpresent
    rw [items_removeItem]
    exact length_filter_of_distinct productId c.items hdistinct hpresent

/-- Removing the latte from a cart with a latte and two pieces of cake: one
entry less, and a second removal changes nothing. -/
theorem removeItem_deletes_witness :
    DistinctIds ((emptyCart.addItem latte 1).addItem velvet 2).items ∧
    (∃ item ∈ ((emptyCart.addItem latte 1).addItem velvet 2).items, item.id = 2) ∧
    (((emptyCart.addItem latte 1).addItem velvet 2).removeItem 2).items
      = [{ toProduct := velvet, quantity := 2 }] ∧
    (((emptyCart.addItem latte 1).addItem velvet 2).removeItem 2).items.length + 1
      = ((emptyCart.addItem latte 1).addItem velvet 2).items.length :=
  ⟨by decide, by decide,
    ((removeItem_deletes ((emptyCart.addItem latte 1).addItem velvet 2) 2).2.1).trans (by decide),
    (removeItem_deletes ((emptyCart.addItem latte 1).addItem velvet 2) 2).2.2.2.2.1 (by decide)
      (by decide)⟩

/-! ## Counts and subtotals under `addItem` -/

theorem getTotalItems_addItem (c : Cart) (P : Product) (q : Int) :
    (c.addItem P q).getTotalItems = c.getTotalItems + q := by
  rw [getTotalItems_eq_sum, getTotalItems_eq_sum]
  cases hfind : c.items.find? (fun item => item.id == P.id) with
  | none =>
    rw [items_addItem_of_none c P q hfind]
    simp
  | some e =>
    rcases updateFirst_split (fun item => item.id == P.id)
      (fun existingItem => { existingItem with quantity := existingItem.quantity + q })
      c.items e hfind with ⟨pre, post, hl, _, _, hupd⟩
    rw [items_addItem_of_some c P q e hfind, hupd, hl]
    simp
    ring

theorem JsNumber.mul_comm (a b : JsNumber) : a * b = b * a := by
  show JsNumber.round (a.m * b.m) (a.e + b.e) = JsNumber.round (b.m * a.m) (b.e + a.e)
  rw [Int.mul_comm, Int.add_comm]

theorem getSubtotal_addItem_of_new (c : Cart) (P : Product) (q : Int)
    (hnew : ∀ item ∈ c.items, item.id ≠ P.id) :
    (c.addItem P q).getSubtotal = c.getSubtotal + P.price * JsNumber.ofInt q := by
  have hnone : c.items.find? (fun item => item.id == P.id) = none :=
    (find_id_none_iff _ _).mpr hnew
  unfold Cart.getSubtotal
  rw [items_addItem_of_none c P q hnone, List.foldl_append]
  rfl

/-- C20, as stated, fails for the subtotal of a merge.  On a cart with one lemon
tart at 4.95 and one latte at 4, `getSubtotal()` is 8.95; after
`addItem(tart, 1)` it is 13.9, while 8.95 plus 1 × 4.95 is
13.899999999999999 in doubles, and the exact values differ as well. -/
theorem subtotal_not_additive_on_merge :
    ((emptyCart.addItem tart 1).addItem latte 1).getSubtotal = 8.95 ∧
    (((emptyCart.addItem tart 1).addItem latte 1).addItem tart 1).getSubtotal = 13.9 ∧
    ((emptyCart.addItem tart 1).addItem latte 1).getSubtotal + JsNumber.ofInt 1 * tart.price
      = 13.899999999999999 ∧
    (((emptyCart.addItem tart 1).addItem latte 1).addItem tart 1).getSubtotal
      ≠ ((emptyCart.addItem tart 1).addItem latte 1).getSubtotal
          + JsNumber.ofInt 1 * tart.price ∧
    (((emptyCart.addItem tart 1).addItem latte 1).addItem tart 1).getSubtotal.toRat
      ≠ ((emptyCart.addItem tart 1).addItem latte 1).getSubtotal.toRat + 1 * tart.price.toRat := by
  have hbefore : ((emptyCart.addItem tart 1).addItem latte 1).getSubtotal
      = ⟨2519201041560371, -48⟩ := by decide
  have hafter : (((emptyCart.addItem tart 1).addItem latte 1).addItem tart 1).getSubtotal
      = ⟨7825004352556237, -49⟩ := by decide
  have hprice : tart.price = ⟨5573204538870989, -50⟩ := by decide
  refine ⟨by decide, by decide, by decide, by decide, ?_⟩
  rw [hbefore, hafter, hprice]
  norm_num [JsNumber.toRat]

/-- C20, amended.  For every cart, merged or appended, `getTotalItems()` after
`addItem(P, q)` is the count before plus `q`.  When no entry has the id of `P`,
so that a new entry is appended, `getSubtotal()` after is the double sum of the
subtotal before and the double product of `q` and the price of `P`.  (After a
merge the subtotal is accumulated anew from the entries; it is not stated to be
the subtotal before plus `q` times the price.) -/
theorem totals_additive_under_addItem (c : Cart) (P : Product) (q : Int) :
    (c.addItem P q).getTotalItems = c.getTotalItems + q ∧
    ((∀ item ∈ c.items, item.id ≠ P.id) →
      (c.addItem P q).getSubtotal = c.getSubtotal + JsNumber.ofInt q * P.price) := by
  refine ⟨getTotalItems_addItem c P q, ?_⟩
  intro hnew
  rw [getSubtotal_addItem_of_new c P q hnew, JsNumber.mul_comm]

/-- Additivity when two lemon tarts at 4.95 are added to a cart with one latte
at 4: three items, and the subtotal 4 + 9.9 = 13.9. -/
theorem totals_additive_under_addItem_witness :
    (∀ item ∈ (emptyCart.addItem latte 1).items, item.id ≠ tart.id) ∧
    ((emptyCart.addItem latte 1).addItem tart 2).getTotalItems = 3 ∧
    ((emptyCart.addItem latte 1).addItem tart 2).getSubtotal = 13.9 :=
  ⟨by decide,
    ((totals_additive_under_addItem (emptyCart.addItem latte 1) tart 2).1).trans (by decide),
    ((totals_additive_under_addItem (emptyCart.addItem latte 1) tart 2).2 (by decide)).trans
      (by decide)⟩

/-! ## The quantity buttons on a cart of the data model -/

theorem find_of_mem_distinct (l : List Item) (e : Item) (h : DistinctIds l) (hmem : e ∈ l) :
    l.find? (fun item => item.id == e.id) = some e := by
  induction l with
  | nil => cases hmem
  | cons x xs ih =>
    have hx : x.id ∉ xs.map (fun item => item.id) := (List.nodup_cons.mp h).1
    have hxs : DistinctIds xs := (List.nodup_cons.mp h).2
    rcases List.mem_cons.mp hmem with rfl | hin
    · simp [List.find?]
    · have hne : x.id ≠ e.id := by
        intro heq
        exact hx (List.mem_map.mpr ⟨e, hin, heq.symm⟩)
      have hfalse : (x.id == e.id) = false := by simpa using hne
      rw [List.find?, hfalse]
      exact ih hxs hin

theorem data_model_of_run (c : Cart) (ops : List CartOp) (hempty : c.items = [])
    (hops : ∀ op ∈ ops, op.AddsPositive) :
    DistinctIds (runOps c ops).items ∧ QuantitiesPositive (runOps c ops).items := by
  constructor
  · apply distinctIds_runOps
    rw [hempty]
    exact List.nodup_nil
  · apply quantitiesPositive_runOps ops c hops
    rw [hempty]
    intro item hitem
    cases hitem

/-- C10 (decrement is a no-op at quantity 1).  For every cart of the data model,
with pairwise-distinct ids and quantities of at least 1 (as every cart built
from the empty one by the operations is, by `data_model_of_run`), and every
entry of it:
if the quantity of the entry is 1, the decrease action on its id leaves the cart
unchanged, so the entry is neither removed nor changed; if its quantity is
`n > 1`, the decrease action sets it to `n - 1`; and the increase action sets
the quantity `n` of the entry to `n + 1`.  In both cases the other entries, the
other fields and the order stay as they were. -/
theorem decrease_increase_buttons (c : Cart) (e : Item)
    (hdistinct : DistinctIds c.items) (hpositive : QuantitiesPositive c.items)
    (hmem : e ∈ c.items) :
    (e.quantity = 1 → c.decrease e.id = c) ∧
    (1 < e.quantity →
      (c.decrease e.id).items
        = c.items.map
            (fun item => if item.id = e.id then { item with quantity := e.quantity - 1 } else item) ∧
      ({ e with quantity := e.quantity - 1 } : Item) ∈ (c.decrease e.id).items) ∧
    ((c.increase e.id).items
        = c.items.map
            (fun item => if item.id = e.id then { item with quantity := e.quantity + 1 } else item) ∧
      ({ e with quantity := e.quantity + 1 } : Item) ∈ (c.increase e.id).items) := by
  have hfirst := find_of_mem_distinct c.items e hdistinct hmem
  have hbuttons := buttons_on_first_entry c e hfirst
  have hnonneg : 0 ≤ e.quantity := by
    have h1 := hpositive e hmem
    omega
  refine ⟨hbuttons.1, ?_, ?_⟩
  · intro hq
    have hitems : (c.decrease e.id).items
        = c.items.map
            (fun item => if item.id = e.id then { item with quantity := e.quantity - 1 } else item) := by
      rw [(hbuttons.2.1 hq).1]
      exact updateFirst_eq_map_of_distinct e.id
        (fun item => { item with quantity := e.quantity - 1 }) c.items hdistinct
    refine ⟨hitems, ?_⟩
    rw [hitems]
    exact List.mem_map.mpr ⟨e, hmem, by simp⟩
  · have hitems : (c.increase e.id).items
        = c.items.map
            (fun item => if item.id = e.id then { item with quantity := e.quantity + 1 } else item) := by
      rw [(hbuttons.2.2 hnonneg).1]
      exact updateFirst_eq_map_of_distinct e.id
        (fun item => { item with quantity := e.quantity + 1 }) c.items hdistinct
    refine ⟨hitems, ?_⟩
    rw [hitems]
    exact List.mem_map.mpr ⟨e, hmem, by simp⟩

/-- The quantity buttons on a cart with one latte and two pieces of cake: minus
on the latte changes nothing, minus on the cake leaves one piece, plus on the
cake makes three. -/
theorem decrease_increase_buttons_witness :
    DistinctIds ((emptyCart.addItem latte 1).addItem velvet 2).items ∧
    QuantitiesPositive ((emptyCart.addItem latte 1).addItem velvet 2).items ∧
    ((emptyCart.addItem latte 1).addItem velvet 2).decrease 2
      = (emptyCart.addItem latte 1).addItem velvet 2 ∧
    (((emptyCart.addItem latte 1).addItem velvet 2).decrease 1).items
      = [{ toProduct := latte, quantity := 1 }, { toProduct := velvet, quantity := 1 }] ∧
    (((emptyCart.addItem latte 1).addItem velvet 2).increase 1).items
      = [{ toProduct := latte, quantity := 1 }, { toProduct := velvet, quantity := 3 }] :=
  ⟨by decide, by decide,
    (decrease_increase_buttons ((emptyCart.addItem latte 1).addItem velvet 2)
      { toProduct := latte, quantity := 1 } (by decide) (by decide) (by decide)).1 rfl,
    ((decrease_increase_buttons ((emptyCart.addItem latte 1).addItem velvet 2)
      { toProduct := velvet, quantity := 2 } (by decide) (by decide) (by decide)).2.1
        (by decide)).1.trans (by decide),
    ((decrease_increase_buttons ((emptyCart.addItem latte 1).addItem velvet 2)
      { toProduct := velvet, quantity := 2 } (by decide) (by decide) (by decide)).2.2).1.trans
        (by decide)⟩

end CartJs
